import Mathlib

/-!
Verification development for the `simplebridge` network driver
(`extensions/simplebridge/driver.go`) and its collaborators.

The driver is shallowly embedded: each Go function becomes a Lean function
over explicit state.  Stateful operations return a triple
`(result, new world, event trace)`; the event trace records lock
acquisition, kernel mutations and property-store mutations, so that
ordering and locking properties can be stated.  Go's `(value, error)`
pairs are kept as pairs where the source inspects both components;
otherwise results use an `Except`-style type.  A Go runtime panic
(nil-pointer dereference) is modelled by a distinct `crash` outcome.

External collaborators that are not part of the driver source
(the property store, `netlink`/`iptables` primitives, `GetBridgeIP`,
`MakeChain`, the endpoint configure/deconfigure methods) are modelled
from the specification's interface descriptions; each such definition
carries a doc comment saying so.
-/

namespace SimpleBridge

/-- Constants from the source (`driver.go` lines 23-27). -/
def maxVethName : Nat := 10

/-- Maximum length of the numeric suffix appended to an interface name. -/
def maxVethSuffixLen : Nat := 2

/-- Bound of the interface-name probe loop (`for i := 0; i < maxVethSuffix`). -/
def maxVethSuffix : Nat := 99

/-- Result of a Go call that can also panic at runtime.  `crash` models a
Go nil-pointer dereference; `err` models a returned non-nil `error`. -/
inductive Res (α : Type) where
  | ok : α → Res α
  | err : String → Res α
  | crash : Res α
deriving DecidableEq, Repr

/-- True when the result is a successful value. -/
def Res.isOk {α : Type} : Res α → Bool
  | .ok _ => true
  | _ => false

/-- True when the result is a returned error (not a panic). -/
def Res.isErr {α : Type} : Res α → Bool
  | .err _ => true
  | _ => false

/-- True when an `Except`-style result is a success. -/
def exIsOk {α : Type} : Except String α → Bool
  | .ok _ => true
  | .error _ => false

instance {ε α : Type} [DecidableEq ε] [DecidableEq α] : DecidableEq (Except ε α) := fun x y =>
  match x, y with
  | .ok a, .ok b =>
    match decEq a b with
    | isTrue h => isTrue (by rw [h])
    | isFalse h => isFalse (by intro he; cases he; exact h rfl)
  | .error a, .error b =>
    match decEq a b with
    | isTrue h => isTrue (by rw [h])
    | isFalse h => isFalse (by intro he; cases he; exact h rfl)
  | .ok _, .error _ => isFalse (by intro he; cases he)
  | .error _, .ok _ => isFalse (by intro he; cases he)

/-! ## Model of the Go `net` standard-library CIDR parsing

`net.ParseCIDR`/`net.ParseIP` are external standard-library functions;
they are modelled here by a simple dotted-quad parser that agrees with
them on the inputs the driver stores ("a.b.c.d/n" strings).  An IPv4
network is four octets plus a mask length. -/

/-- An IPv4 address with a mask, modelling Go's `*net.IPNet`. -/
structure IPNetV where
  ip : List Nat
  maskLen : Nat
deriving DecidableEq, Repr

/-- Split a character list on a separator character. -/
def splitOnChar (c : Char) : List Char → List (List Char)
  | [] => [[]]
  | x :: xs =>
    let r := splitOnChar c xs
    if x = c then [] :: r
    else
      match r with
      | [] => [[x]]
      | h :: t => (x :: h) :: t

/-- Parse a non-empty run of decimal digits. -/
def digitsToNat? : List Char → Option Nat
  | [] => none
  | l =>
    l.foldl
      (fun acc c =>
        match acc with
        | none => none
        | some n =>
          let d := c.toNat
          if 48 ≤ d ∧ d ≤ 57 then some (n * 10 + (d - 48)) else none)
      (some 0)

/-- Parse a dotted-quad IPv4 address; models `net.ParseIP` for IPv4. -/
def parseIPv4 (s : String) : Option (List Nat) :=
  match (splitOnChar '.' s.data).mapM digitsToNat? with
  | some l => if l.length = 4 ∧ l.all (fun o => o ≤ 255) then some l else none
  | none => none

/-- Zero the host bits of one octet given the number of network bits that
fall inside it. -/
def maskOctet (o bits : Nat) : Nat :=
  o / 2 ^ (8 - bits) * 2 ^ (8 - bits)

/-- Apply a mask length to an address, yielding the network base address. -/
def applyMask (ip : List Nat) (maskLen : Nat) : List Nat :=
  ip.enum.map (fun p => maskOctet p.2 (min 8 (maskLen - 8 * p.1)))

/-- Models `net.ParseCIDR`: on success returns the full address together
with the masked network; on failure Go returns `(nil, nil, err)`, modelled
as `none`. -/
def parseCIDR (s : String) : Option (List Nat × IPNetV) :=
  match splitOnChar '/' s.data with
  | [a, m] =>
    match parseIPv4 (String.mk a), digitsToNat? m with
    | some ip, some mask =>
      if mask ≤ 32 then some (ip, { ip := applyMask ip mask, maskLen := mask }) else none
    | _, _ => none
  | _ => none

/-- Dotted-quad rendering of an address. -/
def dottedQuad : List Nat → String
  | [] => ""
  | [x] => toString x
  | x :: xs => toString x ++ "." ++ dottedQuad xs

/-- Models `(*net.IPNet).String()`: "a.b.c.d/n". -/
def cidrString (a : IPNetV) : String :=
  dottedQuad a.ip ++ "/" ++ toString a.maskLen

/-- Models `net.IP.String()`, with Go's rendering of a nil IP. -/
def ipString : Option (List Nat) → String
  | none => "<nil>"
  | some l => dottedQuad l

/-! ## Events

Every state-changing call and every lock transition is recorded in the
trace, so ordering/locking claims can be read off the trace. -/

/-- Trace events: lock transitions, kernel mutations, store mutations. -/
inductive Ev where
  | lock
  | unlock
  | linkAdd (name : String)
  | linkDel (name : String)
  | addrAdd (link : String)
  | linkUp (name : String)
  | setMaster (slave master : String)
  | ipfw
  | ruleIns (args : List String)
  | ruleDel (args : List String)
  | chain (id iface : String)
  | nCreate (id : String)
  | nSet (id key value : String)
  | nRemove (id : String)
  | epCreate (nid eid : String)
  | epSet (nid eid key value : String)
  | epRemove (nid eid : String)
deriving DecidableEq, Repr

/-- Is the event a lock acquisition? -/
def isLockEv : Ev → Bool
  | .lock => true
  | _ => false

/-- Is the event a lock release? -/
def isUnlockEv : Ev → Bool
  | .unlock => true
  | _ => false

/-- Is the event a kernel or property-store mutation (anything but a lock
transition)? -/
def isMutEv (e : Ev) : Bool :=
  !isLockEv e && !isUnlockEv e

/-- Is the event a kernel device deletion? -/
def isLinkDelEv : Ev → Bool
  | .linkDel _ => true
  | _ => false

/-! ## Kernel model

The "kernel network control surface" of the specification: live links,
firewall rules and the IP-forwarding flag.  `netlink`/`iptables` calls
are modelled from the specification as synchronous operations on this
state. -/

/-- Kinds of network devices the driver creates or inspects. -/
inductive LinkKind where
  | bridge
  | vxlan
  | veth
  | eth
deriving DecidableEq, Repr

/-- A live kernel network device. -/
structure LinkDev where
  name : String
  kind : LinkKind
  addrs : List IPNetV
  up : Bool
  master : Option String
deriving DecidableEq, Repr

/-- A fresh device of the given name and kind. -/
def mkDev (name : String) (kind : LinkKind) : LinkDev :=
  { name := name, kind := kind, addrs := [], up := false, master := none }

/-- The kernel networking state. -/
structure Kernel where
  links : List LinkDev
  rules : List (List String)
  ipForward : Bool
deriving DecidableEq, Repr

/-- The empty kernel state. -/
def Kernel.empty : Kernel := { links := [], rules := [], ipForward := false }

/-- Does a live link with this name exist?  Models `netlink.LinkByName`
succeeding. -/
def Kernel.hasLink (k : Kernel) (n : String) : Bool :=
  k.links.any (fun l => decide (l.name = n))

/-- Look up a live link by name. -/
def Kernel.findLink (k : Kernel) (n : String) : Option LinkDev :=
  k.links.find? (fun l => decide (l.name = n))

/-- Modelled from the spec: `netlink.LinkAdd` creates a device, failing
when the name is already taken. -/
def linkAddK (k : Kernel) (dev : LinkDev) : Except String Kernel :=
  if k.hasLink dev.name then .error "file exists"
  else .ok { k with links := k.links ++ [dev] }

/-- Modelled from the spec: `netlink.LinkDel` removes a device, failing
when no device of that name is live. -/
def linkDelK (k : Kernel) (n : String) : Except String Kernel :=
  if k.hasLink n then
    .ok { k with links := k.links.filter (fun l => decide (l.name ≠ n)) }
  else .error "Link not found"

/-- Modelled from the spec: `netlink.AddrList` lists the addresses bound
to a device. -/
def addrListK (k : Kernel) (n : String) : List IPNetV :=
  match k.findLink n with
  | some l => l.addrs
  | none => []

/-- Modelled from the spec: `netlink.AddrAdd` binds an address to a
device. -/
def addrAddK (k : Kernel) (n : String) (a : IPNetV) : Except String Kernel :=
  if k.hasLink n then
    .ok { k with links := k.links.map (fun l => if l.name = n then { l with addrs := l.addrs ++ [a] } else l) }
  else .error "Link not found"

/-- Modelled from the spec: `netlink.LinkSetUp` brings a device up. -/
def linkSetUpK (k : Kernel) (n : String) : Except String Kernel :=
  if k.hasLink n then
    .ok { k with links := k.links.map (fun l => if l.name = n then { l with up := true } else l) }
  else .error "Link not found"

/-- Modelled from the spec: `netlink.LinkSetMaster` enslaves a device to a
bridge. -/
def linkSetMasterK (k : Kernel) (slave master : String) : Except String Kernel :=
  if k.hasLink slave ∧ k.hasLink master then
    .ok { k with links := k.links.map (fun l => if l.name = slave then { l with master := some master } else l) }
  else .error "Link not found"

/-- Modelled from the spec: `net.InterfaceByName` looks a device up by
name, used only for its presence (the vxlan uplink). -/
def interfaceByNameK (k : Kernel) (n : String) : Except String Unit :=
  if k.hasLink n then .ok () else .error "no such network interface"

/-! ## Property store

Modelled from the spec (section 6): `GetProperty(scope, id, name)` returns
a string or `NotFound`; `SetProperty` writes; `RemoveEntity` drops every
property of one entity.  The driver's `getNetworkProperty` /
`setNetworkProperty` / `getEndpointProperty` / `setEndpointProperty` /
`createNetwork` / `removeNetwork` / `createEndpoint` / `removeEndpoint`
helpers (whose file is not part of the given source) are thin wrappers
over this store. -/

/-- Association-list update (replace or append). -/
def assocSet {κ σ : Type} [DecidableEq κ] (key : κ) (v : σ) : List (κ × σ) → List (κ × σ)
  | [] => [(key, v)]
  | (k', v') :: t => if k' = key then (key, v) :: t else (k', v') :: assocSet key v t

/-- Association-list lookup. -/
def assocGet {κ σ : Type} [DecidableEq κ] (key : κ) : List (κ × σ) → Option σ
  | [] => none
  | (k', v') :: t => if k' = key then some v' else assocGet key t

/-- The persisted property store: network properties keyed by
`(network id, property name)`, endpoint properties keyed by
`(network id, endpoint id, property name)`. -/
structure Store where
  nprops : List ((String × String) × String)
  eprops : List ((String × String × String) × String)
deriving DecidableEq, Repr

/-- The empty store. -/
def Store.empty : Store := { nprops := [], eprops := [] }

/-- Modelled from the spec: `GetProperty` on the network scope. -/
def Store.getNProp (st : Store) (id key : String) : Except String String :=
  match assocGet (id, key) st.nprops with
  | some v => .ok v
  | none => .error ("not found: network property " ++ key ++ " of " ++ id)

/-- Modelled from the spec: `SetProperty` on the network scope. -/
def Store.setNProp (st : Store) (id key v : String) : Store :=
  { st with nprops := assocSet (id, key) v st.nprops }

/-- Modelled from the spec: `GetProperty` on the endpoint scope. -/
def Store.getEProp (st : Store) (nid eid key : String) : Except String String :=
  match assocGet (nid, eid, key) st.eprops with
  | some v => .ok v
  | none => .error ("not found: endpoint property " ++ key ++ " of " ++ eid)

/-- Modelled from the spec: `SetProperty` on the endpoint scope. -/
def Store.setEProp (st : Store) (nid eid key v : String) : Store :=
  { st with eprops := assocSet (nid, eid, key) v st.eprops }

/-- Modelled from the spec: `RemoveEntity` on the network scope. -/
def Store.removeNetworkEntity (st : Store) (id : String) : Store :=
  { st with nprops := st.nprops.filter (fun p => decide (p.1.1 ≠ id)) }

/-- Modelled from the spec: `RemoveEntity` on the endpoint scope. -/
def Store.removeEndpointEntity (st : Store) (nid eid : String) : Store :=
  { st with eprops := st.eprops.filter (fun p => decide (¬(p.1.1 = nid ∧ p.1.2.1 = eid))) }

/-- The whole world the driver acts on: persisted store, kernel state, and
the environment value behind `GetBridgeIP` (whose file is not part of the
given source; the spec says it supplies the bridge's subnet address). -/
structure W where
  store : Store
  kernel : Kernel
  bridgeIP : Option IPNetV
deriving DecidableEq, Repr

/-! ## Interface name allocation (`getInterface`, driver.go 246-276)

The probe loop `for i := 0; i < maxVethSuffix; i++` from the source,
parameterized by the liveness oracle `netlink.LinkByName` provides
(a name is free exactly when `LinkByName` fails). -/

/-- Error text of the in-loop length guard (driver.go line 258). -/
def ethNameTooLongMsg (pfx : String) : String :=
  "EthName " ++ pfx ++ " is longer than the allowed bytes"

/-- Error text of the exhaustion guard (driver.go line 267). -/
def exhaustedMsg (pfx : String) : String :=
  "Cannot allocate more than 99 ethernet devices for " ++ pfx

/-- One run of the probe loop of `getInterface` (driver.go lines
255-268) starting at index `i` with `fuel` remaining iterations: return
the first name `pfx ++ toString i` that is not live, erroring on an
over-long candidate name, and reporting exhaustion when the iterations
run out. -/
def findNameLoop (live : String → Bool) (pfx : String) : Nat → Nat → Except String String
  | _, 0 => .error (exhaustedMsg pfx)
  | i, fuel + 1 =>
    if (pfx ++ toString i).length > maxVethName + maxVethSuffixLen then
      .error (ethNameTooLongMsg pfx)
    else if live (pfx ++ toString i) then findNameLoop live pfx (i + 1) fuel
    else .ok (pfx ++ toString i)

/-- The probe loop `for i := 0; i < maxVethSuffix; i++` from index `i`:
exactly `maxVethSuffix - i` iterations remain. -/
def findNameGo (live : String → Bool) (pfx : String) (i : Nat) : Except String String :=
  findNameLoop live pfx i (maxVethSuffix - i)

/-! ## Firewall setup (`setupIPTables`, driver.go 383-454)

The `iptables` package is repository code outside the given source; its
primitives are modelled from the spec: `Exists` is membership in the rule
set, insertion prepends a rule, deletion removes the rule from the set.
The kernel control surface is modelled as reliable (rule commands do not
fail), matching the spec's idempotence discussion. -/

/-- The NAT masquerade rule arguments (driver.go line 392). -/
def natArgs (b a : String) : List String :=
  ["POSTROUTING", "-t", "nat", "-s", a, "!", "-o", b, "-j", "MASQUERADE"]

/-- The inter-container accept rule arguments (driver.go lines 404-405). -/
def acceptArgs (b : String) : List String :=
  ["FORWARD", "-i", b, "-o", b, "-j", "ACCEPT"]

/-- The inter-container drop rule arguments (driver.go lines 404-406). -/
def dropArgs (b : String) : List String :=
  ["FORWARD", "-i", b, "-o", b, "-j", "DROP"]

/-- The outgoing-traffic accept rule arguments (driver.go line 434). -/
def outgoingArgs (b : String) : List String :=
  ["FORWARD", "-i", b, "!", "-o", b, "-j", "ACCEPT"]

/-- The established-connections accept rule arguments (driver.go line 444). -/
def existingArgs (b : String) : List String :=
  ["FORWARD", "-o", b, "-m", "conntrack", "--ctstate", "RELATED,ESTABLISHED", "-j", "ACCEPT"]

/-- Guarded insertion: `if !iptables.Exists(r) { iptables.Raw("-I", r) }`. -/
def insRule (r : List String) (k : Kernel) : Kernel × List Ev :=
  if r ∈ k.rules then (k, [])
  else ({ k with rules := r :: k.rules }, [.ruleIns r])

/-- Unconditional deletion `iptables.Raw("-D", r)` (its error is ignored
by the source); modelled from the spec as removal from the rule set. -/
def delRule (r : List String) (k : Kernel) : Kernel × List Ev :=
  ({ k with rules := k.rules.filter (fun x => decide (x ≠ r)) }, [.ruleDel r])

/-- Sequencing of two rule operations, concatenating their traces. -/
def ruleSeq (p : Kernel × List Ev) (f : Kernel → Kernel × List Ev) : Kernel × List Ev :=
  ((f p.1).1, p.2 ++ (f p.1).2)

/-- Function `setupIPTables(bridgeIface, addr, icc, ipmasq)` (driver.go 383-454):
enables IP forwarding, installs the NAT rule when `ipmasq`, switches the
inter-container policy according to `icc` (deleting the opposite rule,
then inserting the requested one if absent), then installs the outgoing
and established-connections rules if absent. -/
def setupIPTables (b a : String) (icc ipmasq : Bool) (k : Kernel) : Kernel × List Ev :=
  let k0 : Kernel := { k with ipForward := true }
  let p1 := if ipmasq then insRule (natArgs b a) k0 else (k0, [])
  let p2 :=
    if icc then ruleSeq (delRule (dropArgs b) p1.1) (insRule (acceptArgs b))
    else ruleSeq (delRule (acceptArgs b) p1.1) (insRule (dropArgs b))
  let p3 := insRule (outgoingArgs b) p2.1
  let p4 := insRule (existingArgs b) p3.1
  (p4.1, Ev.ipfw :: (p1.2 ++ p2.2 ++ p3.2 ++ p4.2))

/-! ## Driver data types -/

/-- Structure `BridgeNetwork` (network.go of the extension): the bridge device name,
the optional vxlan device name, and the subnet.  The in-memory
`ipallocator` field is not modelled (no claim concerns it). -/
structure BridgeNetwork where
  id : String
  bridge : String
  vxlan : Option String
  network : IPNetV
deriving DecidableEq, Repr

/-- Structure `BridgeEndpoint` (driver.go 73-80): endpoint id, host veth name,
hardware address, MTU, owning network, assigned IP. -/
structure BridgeEndpoint where
  id : String
  interfaceName : String
  hwAddr : String
  mtu : Nat
  network : BridgeNetwork
  ip : Option (List Nat)
deriving DecidableEq, Repr

/-! ## Driver operations -/

/-- Function `loadNetwork` (driver.go 177-200): read the two persisted properties,
parse the stored CIDR — the source assigns `ipNet.IP = ip` without
checking the `ParseCIDR` error, so an unparseable stored address
dereferences a nil `*net.IPNet`, modelled as `crash`.  The loaded network
never carries a vxlan device (the vxlan field is commented out in the
source, line 193). -/
def loadNetwork (w : W) (id : String) : Res BridgeNetwork :=
  match w.store.getNProp id "bridgeInterface" with
  | .error e => .err e
  | .ok iface =>
    match w.store.getNProp id "address" with
    | .error e => .err e
    | .ok addr =>
      match parseCIDR addr with
      | none => .crash
      | some (ip, ipNet) =>
        .ok { id := id, bridge := iface, vxlan := none, network := { ipNet with ip := ip } }

/-- Function `GetNetwork` (driver.go 34-36). -/
def GetNetwork (w : W) (id : String) : Res BridgeNetwork :=
  loadNetwork w id

/-- Function `loadEndpoint` (driver.go 43-81).  The Go function returns the pair
`(*BridgeEndpoint, error)`; every failing path returns `(nil, err)` and
the success path returns `(ep, nil)`, which the embedding keeps as an
explicit pair so the caller's inspection of both components is faithful.
A crash of the inner `loadNetwork` propagates. -/
def loadEndpoint (w : W) (name endpoint : String) :
    Res (Option BridgeEndpoint × Option String) :=
  match w.store.getEProp name endpoint "interfaceName" with
  | .error e => .ok (none, some e)
  | .ok iface =>
    match w.store.getEProp name endpoint "hwAddr" with
    | .error e => .ok (none, some e)
    | .ok hwAddr =>
      match w.store.getEProp name endpoint "mtu" with
      | .error e => .ok (none, some e)
      | .ok mtu =>
        match w.store.getEProp name endpoint "ip" with
        | .error e => .ok (none, some e)
        | .ok ipaddr =>
          let ip := parseIPv4 ipaddr
          let mtuInt := (digitsToNat? mtu.data).getD 0
          match loadNetwork w name with
          | .err e => .ok (none, some e)
          | .crash => .crash
          | .ok network =>
            .ok (some { id := endpoint, interfaceName := iface, hwAddr := hwAddr,
                        mtu := mtuInt, network := network, ip := ip }, none)

/-- Function `saveEndpoint` (driver.go 83-101): persist the four endpoint
properties, in source order. -/
def saveEndpoint (w : W) (name : String) (ep : BridgeEndpoint) : W × List Ev :=
  let s1 := w.store.setEProp name ep.id "interfaceName" ep.interfaceName
  let s2 := s1.setEProp name ep.id "hwAddr" ep.hwAddr
  let s3 := s2.setEProp name ep.id "mtu" (toString ep.mtu)
  let s4 := s3.setEProp name ep.id "ip" (ipString ep.ip)
  ({ w with store := s4 },
   [.epSet name ep.id "interfaceName" ep.interfaceName,
    .epSet name ep.id "hwAddr" ep.hwAddr,
    .epSet name ep.id "mtu" (toString ep.mtu),
    .epSet name ep.id "ip" (ipString ep.ip)])

/-- Function `saveNetwork` (driver.go 164-175): persist the bridge device name and
the subnet CIDR string. -/
def saveNetwork (w : W) (id : String) (bridge : BridgeNetwork) : W × List Ev :=
  let s1 := w.store.setNProp id "bridgeInterface" bridge.bridge
  let s2 := s1.setNProp id "address" (cidrString bridge.network)
  ({ w with store := s2 },
   [.nSet id "bridgeInterface" bridge.bridge,
    .nSet id "address" (cidrString bridge.network)])

/-- Modelled from the spec: the driver's `createNetwork` helper (its file
is not part of the given source) registers the network entity in the
property store; the store interface of the spec has no create operation
with a uniqueness guard and `AddNetwork`'s error contract lists no
duplicate-id failure, so creation of an already-registered entity
succeeds. -/
def createNetwork (w : W) (id : String) : W × List Ev :=
  (w, [.nCreate id])

/-- Modelled from the spec: the driver's `removeNetwork` helper (its file
is not part of the given source) removes the network's persisted
properties via `RemoveEntity`. -/
def removeNetworkProps (w : W) (id : String) : W × List Ev :=
  ({ w with store := w.store.removeNetworkEntity id }, [.nRemove id])

/-- Modelled from the spec: the driver's `createEndpoint` helper (its file
is not part of the given source) registers the endpoint entity in the
property store. -/
def createEndpoint (w : W) (id name : String) : W × List Ev :=
  (w, [.epCreate id name])

/-- Modelled from the spec: the driver's `removeEndpoint` helper (its file
is not part of the given source) removes the endpoint's persisted
properties via `RemoveEntity`. -/
def removeEndpoint (w : W) (nid eid : String) : W × List Ev :=
  ({ w with store := w.store.removeEndpointEntity nid eid }, [.epRemove nid eid])

/-- Modelled from the spec: `BridgeEndpoint.configure(name, sandbox)`
(its file is not part of the given source) creates the veth pair, moves
one end into the sandbox, and assigns address, MAC and MTU; the veth host
name, MAC, MTU and address assignment are deterministic stand-ins for the
allocators. -/
def configure (w : W) (ep : BridgeEndpoint) (name sandbox : String) :
    Except String (BridgeEndpoint × W × List Ev) :=
  let vname := "v" ++ name
  match linkAddK w.kernel (mkDev vname .veth) with
  | .error e => .error e
  | .ok k =>
    .ok ({ ep with
            interfaceName := vname
            hwAddr := "02:42:00:00:00:02"
            mtu := 1500
            ip := some ep.network.network.ip },
         { w with kernel := k }, [.linkAdd vname])

/-- Modelled from the spec: `BridgeEndpoint.deconfigure(name)` (its file
is not part of the given source) removes the host-side veth device and
must succeed even when the device is already gone. -/
def deconfigure (w : W) (ep : BridgeEndpoint) : W × List Ev :=
  match linkDelK w.kernel ep.interfaceName with
  | .ok k => ({ w with kernel := k }, [.linkDel ep.interfaceName])
  | .error _ => (w, [])

/-- Error text of `Link`'s length guard (driver.go line 106). -/
def nameTooLongMsg (name : String) : String :=
  "name " ++ name ++ " is too long, must be 10 characters"

/-- Error text of `Link`'s endpoint-conflict guard (driver.go line 123). -/
def alreadyTakenMsg (name : String) : String :=
  "Endpoint " ++ name ++ " already taken"

/-- Function `Link` (driver.go 104-142): length guard before the lock; then, under
the lock, load the network, run the endpoint-conflict guard
(`ep != nil && err != nil && !replace`, exactly as in the source), create
the endpoint entity, configure the veth, and persist the endpoint.  The
deferred unlock closes the trace on every locked path. -/
def Link (w : W) (id name sandbox : String) (replace : Bool) :
    Res BridgeEndpoint × W × List Ev :=
  if name.length > maxVethName then (.err (nameTooLongMsg name), w, [])
  else
    match loadNetwork w id with
    | .err e => (.err e, w, [.lock, .unlock])
    | .crash => (.crash, w, [.lock, .unlock])
    | .ok network =>
      let ep : BridgeEndpoint :=
        { id := name, interfaceName := "", hwAddr := "", mtu := 0,
          network := network, ip := none }
      match loadEndpoint w id name with
      | .crash => (.crash, w, [.lock, .unlock])
      | .err e => (.err e, w, [.lock, .unlock])
      | .ok p =>
        if p.1.isSome ∧ p.2.isSome ∧ ¬replace then
          (.err (alreadyTakenMsg name), w, [.lock, .unlock])
        else
          let (w1, t1) := createEndpoint w id name
          match configure w1 ep name sandbox with
          | .error e => (.err e, w1, .lock :: (t1 ++ [.unlock]))
          | .ok (ep1, w2, t2) =>
            let (w3, t3) := saveEndpoint w2 id ep1
            (.ok ep1, w3, .lock :: (t1 ++ t2 ++ t3 ++ [.unlock]))

/-- Function `Unlink` (driver.go 144-162): under the lock, load the endpoint
(failing when it has no persisted properties), deconfigure the veth and
remove the persisted endpoint properties.  A `(nil, nil)` result from
`loadEndpoint` would make the source dereference a nil endpoint, modelled
as `crash` (unreachable, see `loadEndpoint_sound`). -/
def Unlink (w : W) (netid name sandbox : String) : Res Unit × W × List Ev :=
  match loadEndpoint w netid name with
  | .crash => (.crash, w, [.lock, .unlock])
  | .err e => (.err e, w, [.lock, .unlock])
  | .ok (_, some e) =>
    (.err ("No endpoint for name " ++ name ++ ": " ++ e), w, [.lock, .unlock])
  | .ok (some ep, none) =>
    let (w1, t1) := deconfigure w ep
    let (w2, t2) := removeEndpoint w1 netid name
    (.ok (), w2, .lock :: (t1 ++ t2 ++ [.unlock]))
  | .ok (none, none) => (.crash, w, [.lock, .unlock])

/-- Function `getInterface` (driver.go 246-276): under the lock, probe for a free
name with the suffix loop, then create the device with `netlink.LinkAdd`.
The deferred unlock closes the trace on every path. -/
def getInterface (w : W) (pfx : String) (kind : LinkKind) :
    Except String String × W × List Ev :=
  match findNameGo (fun n => w.kernel.hasLink n) pfx 0 with
  | .error e => (.error e, w, [.lock, .unlock])
  | .ok n =>
    match linkAddK w.kernel (mkDev n kind) with
    | .error e => (.error e, w, [.lock, .unlock])
    | .ok k => (.ok n, { w with kernel := k }, [.lock, .linkAdd n, .unlock])

/-- Modelled from the spec: `GetBridgeIP` (its file is not part of the
given source) supplies the network's subnet address; here it reads a
fixed environment value. -/
def getBridgeIP (w : W) : Except String IPNetV :=
  match w.bridgeIP with
  | some a => .ok a
  | none => .error "no bridge address available"

/-- Modelled from the spec: `MakeChain` (its file is not part of the given
source) marks the network's forwarding chain. -/
def makeChain (w : W) (id iface : String) : W × List Ev :=
  (w, [.chain id iface])

/-- Function `createBridge` (driver.go 278-369): allocate the bridge device via
`getInterface`, bind the bridge address unless already bound, bring the
device up, install the base firewall rules (note the source passes the
network id, not the allocated device name, to `setupIPTables`), create
and attach the vxlan overlay exactly when the peer and device options are
non-empty and the id is not the literal "default", then mark the chain. -/
def createBridge (w : W) (id : String) (vlanid port : Nat) (peer device : String) :
    Except String BridgeNetwork × W × List Ev :=
  match getInterface w id .bridge with
  | (.error e, w1, t1) => (.error e, w1, t1)
  | (.ok bname, w1, t1) =>
    match getBridgeIP w1 with
    | .error e => (.error e, w1, t1)
    | .ok addr =>
      let found := (addrListK w1.kernel bname).any (fun el => decide (el = addr))
      match (if found then Except.ok w1.kernel else addrAddK w1.kernel bname addr) with
      | .error e => (.error e, w1, t1)
      | .ok k2 =>
        let t2 := if found then ([] : List Ev) else [Ev.addrAdd bname]
        match linkSetUpK k2 bname with
        | .error e => (.error e, { w1 with kernel := k2 }, t1 ++ t2)
        | .ok k3 =>
          let (k4, t4) := setupIPTables id (cidrString addr) true true k3
          let w4 : W := { w1 with kernel := k4 }
          let t0 := t1 ++ t2 ++ [Ev.linkUp bname] ++ t4
          if peer ≠ "" ∧ device ≠ "" ∧ id ≠ "default" then
            match interfaceByNameK w4.kernel device with
            | .error e => (.error e, w4, t0)
            | .ok _ =>
              match getInterface w4 ("vx" ++ id) .vxlan with
              | (.error e, w5, t5) => (.error e, w5, t0 ++ t5)
              | (.ok vname, w5, t5) =>
                match linkSetMasterK w5.kernel vname bname with
                | .error e => (.error e, w5, t0 ++ t5)
                | .ok k6 =>
                  match linkSetUpK k6 vname with
                  | .error e => (.error e, { w5 with kernel := k6 }, t0 ++ t5 ++ [.setMaster vname bname])
                  | .ok k7 =>
                    let (w8, t8) := makeChain { w5 with kernel := k7 } id bname
                    (.ok { id := id, bridge := bname, vxlan := some vname, network := addr },
                     w8, t0 ++ t5 ++ [.setMaster vname bname, .linkUp vname] ++ t8)
          else
            let (w8, t8) := makeChain w4 id bname
            (.ok { id := id, bridge := bname, vxlan := none, network := addr },
             w8, t0 ++ t8)

/-- Function `AddNetwork` (driver.go 202-231), after the external flag parsing:
register the network entity, create the bridge (and optional overlay),
persist the derived properties.  The option values are the parsed flag
results (`peer`, `dev`, `vid`, `port`); an empty argument list yields
`peer = ""` (absent `DOCKER_PEER`), `device = "eth0"`, `vlanid = 42`,
`port = 4789`. -/
def AddNetwork (w : W) (id peer device : String) (vlanid port : Nat) :
    Except String Unit × W × List Ev :=
  let (w1, t1) := createNetwork w id
  match createBridge w1 id vlanid port peer device with
  | (.error e, w2, t2) => (.error e, w2, t1 ++ t2)
  | (.ok bridge, w2, t2) =>
    let (w3, t3) := saveNetwork w2 id bridge
    (.ok (), w3, t1 ++ t2 ++ t3)

/-- Function `destroyBridge` (driver.go 371-380): delete the vxlan device first
when present — returning immediately on its failure — then delete the
bridge device. -/
def destroyBridge (w : W) (b : String) : Option String → Except String Unit × W × List Ev
  | some vn =>
    match linkDelK w.kernel vn with
    | .error e => (.error e, w, [])
    | .ok k1 =>
      match linkDelK k1 b with
      | .error e => (.error e, { w with kernel := k1 }, [.linkDel vn])
      | .ok k2 => (.ok (), { w with kernel := k2 }, [.linkDel vn, .linkDel b])
  | none =>
    match linkDelK w.kernel b with
    | .error e => (.error e, w, [])
    | .ok k2 => (.ok (), { w with kernel := k2 }, [.linkDel b])

/-- Modelled from the spec: `BridgeNetwork.destroy()` (its file is not
part of the given source) deletes the overlay device (if any) then the
bridge device, via the driver's `destroyBridge`. -/
def destroy (bn : BridgeNetwork) (w : W) : Except String Unit × W × List Ev :=
  destroyBridge w bn.bridge bn.vxlan

/-- Function `RemoveNetwork` (driver.go 233-244): load the network, remove its
persisted properties (`d.removeNetwork(id)`), then destroy the kernel
devices. -/
def RemoveNetwork (w : W) (id : String) : Res Unit × W × List Ev :=
  match loadNetwork w id with
  | .err e => (.err e, w, [])
  | .crash => (.crash, w, [])
  | .ok bridge =>
    let (w1, t1) := removeNetworkProps w id
    match destroy bridge w1 with
    | (.error e, w2, t2) => (.err e, w2, t1 ++ t2)
    | (.ok _, w2, t2) => (.ok (), w2, t1 ++ t2)

/-- Checks that a trace is one lock-protected critical section: it opens
with the lock acquisition, closes with the release, and has no lock
transition strictly inside. -/
def sectionFrom : List Ev → Bool
  | [.unlock] => true
  | e :: rest => !isLockEv e && !isUnlockEv e && sectionFrom rest
  | [] => false

/-- A trace that is entirely one critical section. -/
def wellLocked : List Ev → Bool
  | .lock :: rest => sectionFrom rest
  | _ => false

/-! ## Concrete worlds used by the claim theorems -/

/-- A store whose persisted `address` property is not a CIDR string. -/
def wBadAddr : W :=
  { store := { nprops := [(("n", "bridgeInterface"), "br0"), (("n", "address"), "banana")]
               eprops := [] }
    kernel := Kernel.empty
    bridgeIP := none }

/-- A world holding a persisted network `n` (bridge `n0`, subnet
`10.0.0.0/24`), a fully persisted endpoint `e0` on it, and the live
bridge device. -/
def wEp : W :=
  { store := { nprops := [(("n", "bridgeInterface"), "n0"), (("n", "address"), "10.0.0.0/24")]
               eprops := [(("n", "e0", "interfaceName"), "ve0"),
                          (("n", "e0", "hwAddr"), "aa:bb:cc:dd:ee:ff"),
                          (("n", "e0", "mtu"), "1500"),
                          (("n", "e0", "ip"), "10.0.0.2")] }
    kernel := { links := [mkDev "n0" .bridge], rules := [], ipForward := false }
    bridgeIP := none }

/-- A fresh world with no persisted state, no live devices, and a bridge
address available. -/
def wFresh : W :=
  { store := Store.empty
    kernel := Kernel.empty
    bridgeIP := some { ip := [10, 1, 42, 1], maskLen := 16 } }

/-- A world holding a persisted network `n` with its live bridge `n0`. -/
def wNet : W :=
  { store := { nprops := [(("n", "bridgeInterface"), "n0"), (("n", "address"), "10.0.0.0/24")]
               eprops := [] }
    kernel := { links := [mkDev "n0" .bridge], rules := [], ipForward := false }
    bridgeIP := none }

/-- A kernel holding only the live bridge `br0` (no overlay device). -/
def wBr : W :=
  { store := Store.empty
    kernel := { links := [mkDev "br0" .bridge], rules := [], ipForward := false }
    bridgeIP := none }

/-- A world with a live uplink device `eth0` and a bridge address, for a
successful overlay-carrying `createBridge` run. -/
def wUp : W :=
  { store := Store.empty
    kernel := { links := [mkDev "eth0" .eth], rules := [], ipForward := false }
    bridgeIP := some { ip := [10, 1, 42, 1], maskLen := 16 } }

/-! ## Claim theorems -/

/-- C10: the claim says `GetNetwork` checks the CIDR parse result before
dereferencing it, so no persisted state causes a crash.  The source
(driver.go lines 188-189) assigns `ipNet.IP = ip` without checking the
`ParseCIDR` error, so a persisted network whose `address` property is not
a CIDR string makes `GetNetwork` dereference a nil `*net.IPNet` — a
crash, exactly what the claim excludes. -/
theorem loadNetwork_crashes_on_bad_cidr : GetNetwork wBadAddr "n" = Res.crash := by decide

/-- C1: the claim says `Link` with `replace = false` on an already
persisted endpoint name fails with an already-exists error and mutates
nothing.  The source guard (driver.go line 122) tests
`ep != nil && err != nil`, which `loadEndpoint` can never produce
(see `loadEndpoint_sound`), so on a world with endpoint `e0` fully
persisted, `Link` succeeds, never returns the already-taken error,
changes the world, and performs kernel and persistence mutations. -/
theorem link_ignores_persisted_endpoint :
    (Link wEp "n" "e0" "sb" false).1.isOk = true ∧
    (Link wEp "n" "e0" "sb" false).1 ≠ .err (alreadyTakenMsg "e0") ∧
    (Link wEp "n" "e0" "sb" false).2.1 ≠ wEp ∧
    (Link wEp "n" "e0" "sb" false).2.2.any isMutEv = true := by decide

/-- Support for C1: `loadEndpoint` (driver.go 43-81) never returns both a
non-nil endpoint and a non-nil error — every failing path returns
`(nil, err)` and the success path `(ep, nil)` — so the conflict guard
`ep != nil && err != nil` in `Link` is unsatisfiable. -/
theorem loadEndpoint_sound (w : W) (name endpoint : String) (ep : BridgeEndpoint)
    (eo : Option String) (h : loadEndpoint w name endpoint = .ok (some ep, eo)) :
    eo = none := by
  unfold loadEndpoint at h
  repeat' split at h
  all_goals simp_all

/-- C2: the claim says a second `AddNetwork` with the same id either
fails or is a no-op, and never yields two live bridge devices for one
id.  From a fresh world, the second call succeeds, changes the world,
and leaves two live bridge devices (`n0` and `n1`) both created for
network id `n`: the interface-name probe of `createBridge` simply
allocates the next suffix and nothing guards against the duplicate id. -/
theorem addNetwork_twice_creates_two_bridges :
    (AddNetwork wFresh "n" "" "eth0" 42 4789).1 = .ok () ∧
    (AddNetwork (AddNetwork wFresh "n" "" "eth0" 42 4789).2.1 "n" "" "eth0" 42 4789).1 = .ok () ∧
    (AddNetwork (AddNetwork wFresh "n" "" "eth0" 42 4789).2.1 "n" "" "eth0" 42 4789).2.1 ≠
      (AddNetwork wFresh "n" "" "eth0" 42 4789).2.1 ∧
    (((AddNetwork (AddNetwork wFresh "n" "" "eth0" 42 4789).2.1 "n" "" "eth0" 42 4789).2.1.kernel.links.filter
        (fun l => decide (l.kind = .bridge))).map (fun l => l.name)) = ["n0", "n1"] := by decide

/-- C4 counterexample: the claim says `RemoveNetwork` removes the
persisted properties only after the kernel deletions.  On a world with
network `n` persisted and its bridge live, the trace is property removal
first (index 0), kernel deletion second (index 1). -/
theorem removeNetwork_props_first_counterexample :
    (RemoveNetwork wNet "n").1 = .ok () ∧
    (RemoveNetwork wNet "n").2.2 = [.nRemove "n", .linkDel "n0"] := by decide

/-- C5 counterexample: the claim says both deletions are attempted and
both errors reported.  With bridge `br0` live but overlay `vx0` absent,
the overlay deletion fails and `destroyBridge` returns that single error
at once: the state is unchanged, no bridge deletion is attempted, and
`br0` stays live. -/
theorem destroyBridge_aborts_counterexample :
    destroyBridge wBr "br0" (some "vx0") = (.error "Link not found", wBr, []) ∧
    wBr.kernel.hasLink "br0" = true := by decide

/-- C8 counterexample: the claim says `RemoveNetwork` holds the driver
lock for its full duration.  On a world with network `n` persisted and
its bridge live, `RemoveNetwork` performs kernel and persistence
mutations yet its trace contains no lock acquisition at all
(driver.go 233-244 never touches `d.mutex`). -/
theorem removeNetwork_no_lock_counterexample :
    (RemoveNetwork wNet "n").2.2.any isMutEv = true ∧
    (RemoveNetwork wNet "n").2.2.any isLockEv = false := by decide

/-- C9: any endpoint name longer than `maxVethName` (10) makes `Link`
fail with the name-too-long error before the lock is taken: the result
is the error, the world is unchanged, and the trace is empty — no lock,
no kernel operation, no persistence write (driver.go 105-107). -/
theorem link_name_too_long (w : W) (id name sandbox : String) (replace : Bool)
    (h : maxVethName < name.length) :
    Link w id name sandbox replace = (.err (nameTooLongMsg name), w, []) := by
  unfold Link
  rw [if_pos h]

/-- Candidate suffixes below the probe bound print with at most two
digits. -/
lemma toString_len_le : ∀ i, i < maxVethSuffix → (toString i).length ≤ 2 := by decide

/-- If every name probed within the remaining fuel is live (and fits the
length bound), the probe loop reports exhaustion. -/
lemma findNameLoop_exhaust (live : String → Bool) (pfx : String) :
    ∀ fuel i,
      (∀ j, i ≤ j → j < i + fuel →
        (pfx ++ toString j).length ≤ maxVethName + maxVethSuffixLen) →
      (∀ j, i ≤ j → j < i + fuel → live (pfx ++ toString j) = true) →
      findNameLoop live pfx i fuel = .error (exhaustedMsg pfx) := by
  intro fuel
  induction fuel with
  | zero => intro i _ _; rfl
  | succ fuel ih =>
    intro i hlen hlive
    simp only [findNameLoop]
    rw [if_neg (by have := hlen i le_rfl (by omega); omega)]
    rw [if_pos (hlive i le_rfl (by omega))]
    exact ih (i + 1) (fun j h1 h2 => hlen j (by omega) (by omega))
      (fun j h1 h2 => hlive j (by omega) (by omega))

/-- If `k` is the first index at or after `i`, within the remaining fuel,
whose name is free (and the probed names fit the length bound), the probe
loop returns that name. -/
lemma findNameLoop_ok (live : String → Bool) (pfx : String) :
    ∀ fuel i k, i ≤ k → k < i + fuel →
      live (pfx ++ toString k) = false →
      (∀ j, i ≤ j → j < k → live (pfx ++ toString j) = true) →
      (∀ j, i ≤ j → j ≤ k →
        (pfx ++ toString j).length ≤ maxVethName + maxVethSuffixLen) →
      findNameLoop live pfx i fuel = .ok (pfx ++ toString k) := by
  intro fuel
  induction fuel with
  | zero => intro i k h1 h2 _ _ _; omega
  | succ fuel ih =>
    intro i k h1 h2 hfree hbusy hlen
    simp only [findNameLoop]
    rw [if_neg (by have := hlen i le_rfl h1; omega)]
    by_cases hik : i = k
    · subst hik
      rw [if_neg (by simp [hfree])]
    · have hlt : i < k := lt_of_le_of_ne h1 hik
      rw [if_pos (hbusy i le_rfl hlt)]
      exact ih (i + 1) k (by omega) (by omega) hfree
        (fun j a b => hbusy j (by omega) b) (fun j a b => hlen j (by omega) b)

/-- C3 counterexample: a liveness state in which every interface name is
taken except the one with suffix 99.  The claim predicts the allocation
succeeds with `n99` and errors only once all of suffixes 0..99 are
taken, but the loop bound `i < maxVethSuffix` (driver.go line 255) never
probes suffix 99 and the code reports exhaustion with `n99` still free. -/
theorem nameProbe_exhausts_with_suffix99_free :
    findNameGo (fun n => !(n == "n99")) "n" 0 = .error (exhaustedMsg "n") ∧
    (fun n => !(n == "n99")) ("n" ++ toString 99) = false := by decide

/-- C3 amended: for a prefix within the device-name limit, the probe
returns `pfx ++ toString k` for the smallest `k` in `0..98` whose name
is not live, and reports exhaustion exactly when all 99 names with
suffixes 0 through 98 are taken, i.e. already on the 100th distinct
request — suffix 99 is never probed. -/
theorem nameProbe_amended (live : String → Bool) (pfx : String)
    (hp : pfx.length ≤ maxVethName) :
    ((∀ j, j < maxVethSuffix → live (pfx ++ toString j) = true) →
      findNameGo live pfx 0 = .error (exhaustedMsg pfx)) ∧
    (∀ k, k < maxVethSuffix → live (pfx ++ toString k) = false →
      (∀ j, j < k → live (pfx ++ toString j) = true) →
      findNameGo live pfx 0 = .ok (pfx ++ toString k)) := by
  have hlen : ∀ j, j < maxVethSuffix →
      (pfx ++ toString j).length ≤ maxVethName + maxVethSuffixLen := by
    intro j hj
    have h1 := toString_len_le j hj
    have h2 : (pfx ++ toString j).length = pfx.length + (toString j).length :=
      String.length_append pfx (toString j)
    simp only [maxVethName, maxVethSuffixLen] at hp ⊢
    omega
  constructor
  · intro hall
    simp only [findNameGo, Nat.sub_zero]
    exact findNameLoop_exhaust live pfx maxVethSuffix 0
      (fun j _ h2 => hlen j (by omega)) (fun j _ h2 => hall j (by omega))
  · intro k hk hfree hbusy
    simp only [findNameGo, Nat.sub_zero]
    exact findNameLoop_ok live pfx maxVethSuffix 0 k (Nat.zero_le k) (by omega) hfree
      (fun j _ hj => hbusy j hj) (fun j _ hj => hlen j (by omega))

/-- C3 witness: with no live interfaces, the probe for prefix `net`
returns `net0`. -/
theorem nameProbe_amended_witness :
    findNameGo (fun _ => false) "net" 0 = .ok ("net" ++ toString 0) :=
  (nameProbe_amended (fun _ => false) "net" (by decide)).2 0 (by decide) rfl
    (fun j hj => absurd hj (Nat.not_lt_zero j))

/-- C4 amended: `RemoveNetwork` first loads the network — failing with
the load's not-found error, with no mutation, when the network's
persisted properties are absent — and then removes the persisted
properties first and performs the kernel deletions only afterwards: on
every successful load the trace is the property removal followed
exclusively by kernel device deletions. -/
theorem removeNetwork_amended (w : W) (id : String) :
    (∀ e, loadNetwork w id = .err e → RemoveNetwork w id = (.err e, w, [])) ∧
    (∀ bn, loadNetwork w id = .ok bn →
      ∃ rest, (RemoveNetwork w id).2.2 = .nRemove id :: rest ∧
        rest.all isLinkDelEv = true) := by
  constructor
  · intro e h
    unfold RemoveNetwork
    rw [h]
  · intro bn h
    unfold RemoveNetwork
    rw [h]
    unfold destroy removeNetworkProps
    dsimp only
    cases hv : bn.vxlan with
    | none =>
      simp only [destroyBridge]
      cases h2 : linkDelK w.kernel bn.bridge <;> simp [h2, isLinkDelEv]
    | some vn =>
      simp only [destroyBridge]
      cases h2 : linkDelK w.kernel vn with
      | error e => simp [h2]
      | ok k1 =>
        cases h3 : linkDelK k1 bn.bridge <;> simp [h2, h3, isLinkDelEv]

/-- C4 witness: on the world `wNet` the network `n` loads successfully
and the trace is the property removal followed by kernel deletions. -/
theorem removeNetwork_amended_witness :
    ∃ rest, (RemoveNetwork wNet "n").2.2 = .nRemove "n" :: rest ∧
      rest.all isLinkDelEv = true :=
  (removeNetwork_amended wNet "n").2
    { id := "n", bridge := "n0", vxlan := none
      network := { ip := [10, 0, 0, 0], maskLen := 24 } } (by decide)

/-- C5 amended: `destroyBridge` attempts the overlay deletion first and,
when it fails, returns that single error immediately — the state is
untouched and the bridge deletion is not attempted; the bridge deletion
runs only after a successful overlay deletion. -/
theorem destroyBridge_amended (w : W) (b vn : String) :
    (∀ e, linkDelK w.kernel vn = .error e →
      destroyBridge w b (some vn) = (.error e, w, [])) ∧
    (∀ k1, linkDelK w.kernel vn = .ok k1 →
      (destroyBridge w b (some vn)).2.2.head? = some (.linkDel vn)) := by
  constructor
  · intro e h
    simp only [destroyBridge]
    rw [h]
  · intro k1 h
    simp only [destroyBridge]
    rw [h]
    cases h2 : linkDelK k1 b <;> simp [h2]

/-- C5 witness: deleting a network whose overlay device `vx9` is absent
returns the overlay error alone, with the world untouched. -/
theorem destroyBridge_amended_witness :
    destroyBridge wBr "br0" (some "vx9") = (.error "Link not found", wBr, []) :=
  (destroyBridge_amended wBr "br0" "vx9").1 "Link not found" (by decide)

/-- Does a successful `createBridge` result carry an overlay device? -/
def okVxlanSome : Except String BridgeNetwork → Bool
  | .ok bn => bn.vxlan.isSome
  | .error _ => false

/-- C7: a successful `createBridge` run creates and attaches a vxlan
overlay device if and only if the peer option is non-empty, the device
option is non-empty, and the network id is not the literal "default"
(driver.go line 323). -/
theorem createBridge_vxlan_iff (w : W) (id : String) (vlanid port : Nat)
    (peer device : String) (r : Except String BridgeNetwork) (w' : W) (t : List Ev)
    (heq : createBridge w id vlanid port peer device = (r, w', t))
    (hok : exIsOk r = true) :
    okVxlanSome r = true ↔ (peer ≠ "" ∧ device ≠ "" ∧ id ≠ "default") := by
  simp only [createBridge] at heq
  repeat' split at heq
  all_goals cases heq
  all_goals simp_all [okVxlanSome, exIsOk]

/-- C7 witness: a concrete run with a live uplink `eth0`, a non-empty
peer and a non-default id succeeds and carries an overlay device. -/
theorem createBridge_vxlan_iff_witness :
    exIsOk (createBridge wUp "n" 42 4789 "10.0.0.9" "eth0").1 = true ∧
    (okVxlanSome (createBridge wUp "n" 42 4789 "10.0.0.9" "eth0").1 = true ↔
      (("10.0.0.9" : String) ≠ "" ∧ ("eth0" : String) ≠ "" ∧ ("n" : String) ≠ "default")) :=
  ⟨by decide,
   createBridge_vxlan_iff wUp "n" 42 4789 "10.0.0.9" "eth0" _ _ _ rfl (by decide)⟩

/-- A successful `configure` records exactly the veth creation. -/
lemma configure_ok_trace (w : W) (ep ep' : BridgeEndpoint) (name sb : String)
    (w' : W) (t : List Ev) (h : configure w ep name sb = .ok (ep', w', t)) :
    t = [.linkAdd ("v" ++ name)] := by
  simp only [configure] at h
  split at h
  · exact absurd h (by simp)
  · cases h; rfl

/-- C8 amended: `Link` (once past its pre-lock length check), `Unlink`
and the interface-name probe `getInterface` each acquire the driver lock
at entry and hold it for the whole call — their traces are single
critical sections.  `AddNetwork`, however, does not take the lock at
entry (its first action is the network-entity creation; the lock is held
only inside the interface-name probes), and `RemoveNetwork` never
acquires the lock at all. -/
theorem locking_amended :
    (∀ (w : W) (id name sandbox : String) (replace : Bool),
      name.length ≤ maxVethName →
      wellLocked (Link w id name sandbox replace).2.2 = true) ∧
    (∀ (w : W) (netid name sandbox : String),
      wellLocked (Unlink w netid name sandbox).2.2 = true) ∧
    (∀ (w : W) (pfx : String) (kind : LinkKind),
      wellLocked (getInterface w pfx kind).2.2 = true) ∧
    (∀ (w : W) (id peer device : String) (vlanid port : Nat),
      (AddNetwork w id peer device vlanid port).2.2.head? = some (.nCreate id)) ∧
    (∀ (w : W) (id : String),
      (RemoveNetwork w id).2.2.all (fun e => !isLockEv e) = true) := by
  refine ⟨?_, ?_, ?_, ?_, ?_⟩
  · intro w id name sandbox replace h
    unfold Link
    rw [if_neg (by omega)]
    split
    · rfl
    · rfl
    · split
      · rfl
      · rfl
      · split
        · rfl
        · dsimp only [createEndpoint]
          split
          · rfl
          · rename_i ep1 w2 t2 heq
            have ht := configure_ok_trace _ _ _ _ _ _ _ heq
            subst ht
            rfl
  · intro w netid name sandbox
    unfold Unlink
    split
    · rfl
    · rfl
    · rfl
    · dsimp only [removeEndpoint]
      unfold deconfigure
      split <;> rfl
    · rfl
  · intro w pfx kind
    unfold getInterface
    split
    · rfl
    · split <;> rfl
  · intro w id peer device vlanid port
    unfold AddNetwork
    dsimp only [createNetwork]
    split <;> rfl
  · intro w id
    unfold RemoveNetwork
    split
    · rfl
    · rfl
    · dsimp only [removeNetworkProps]
      unfold destroy
      rename_i bridge _
      cases hv : bridge.vxlan with
      | none =>
        simp only [destroyBridge]
        cases h2 : linkDelK w.kernel bridge.bridge <;> simp [h2, isLockEv]
      | some vn =>
        simp only [destroyBridge]
        cases h2 : linkDelK w.kernel vn with
        | error e => simp [h2, isLockEv]
        | ok k1 =>
          cases h3 : linkDelK k1 bridge.bridge <;> simp [h2, h3, isLockEv]

/-- C8 witness: a concrete `Link` call with a short name is one critical
section. -/
theorem locking_amended_witness :
    ("e" : String).length ≤ maxVethName ∧
    wellLocked (Link wFresh "n" "e" "sb" false).2.2 = true :=
  ⟨by decide, locking_amended.1 wFresh "n" "e" "sb" false (by decide)⟩

/-- Guarded insertion leaves the state alone when the rule is present. -/
lemma insRule_fst_of_mem (r : List String) (k : Kernel) (h : r ∈ k.rules) :
    (insRule r k).1 = k := by
  unfold insRule; rw [if_pos h]

/-- Guarded insertion makes the rule present. -/
lemma mem_insRule_self (r : List String) (k : Kernel) : r ∈ (insRule r k).1.rules := by
  unfold insRule; split
  · assumption
  · exact List.mem_cons_self r _

/-- Guarded insertion preserves present rules. -/
lemma mem_insRule (r x : List String) (k : Kernel) (h : x ∈ k.rules) :
    x ∈ (insRule r k).1.rules := by
  unfold insRule; split
  · exact h
  · exact List.mem_cons_of_mem r h

/-- Guarded insertion of a different rule preserves absence. -/
lemma not_mem_insRule (r x : List String) (k : Kernel) (hne : x ≠ r) (h : x ∉ k.rules) :
    x ∉ (insRule r k).1.rules := by
  unfold insRule; split
  · exact h
  · simp [List.mem_cons, hne, h]

/-- Guarded insertion does not touch the forwarding flag. -/
lemma insRule_ipf (r : List String) (k : Kernel) :
    (insRule r k).1.ipForward = k.ipForward := by
  unfold insRule; split <;> rfl

/-- Deleting an absent rule leaves the state alone. -/
lemma delRule_fst_of_not_mem (r : List String) (k : Kernel) (h : r ∉ k.rules) :
    (delRule r k).1 = k := by
  have hf : k.rules.filter (fun x => decide (x ≠ r)) = k.rules := by
    apply List.filter_eq_self.mpr
    intro x hx
    simp only [decide_eq_true_eq]
    rintro rfl
    exact h hx
  unfold delRule
  dsimp only
  rw [hf]

/-- Deletion removes the rule. -/
lemma not_mem_delRule_self (r : List String) (k : Kernel) :
    r ∉ (delRule r k).1.rules := by
  unfold delRule
  simp

/-- Deletion preserves other present rules. -/
lemma mem_delRule (r x : List String) (k : Kernel) (hne : x ≠ r) (h : x ∈ k.rules) :
    x ∈ (delRule r k).1.rules := by
  unfold delRule
  simp [List.mem_filter, h, hne]

/-- Deletion does not touch the forwarding flag. -/
lemma delRule_ipf (r : List String) (k : Kernel) :
    (delRule r k).1.ipForward = k.ipForward := rfl

/-- The NAT rule differs from the accept rule. -/
lemma nat_ne_accept (b a : String) : natArgs b a ≠ acceptArgs b := by
  intro h; have := congrArg List.length h; simp [natArgs, acceptArgs] at this

/-- The NAT rule differs from the drop rule. -/
lemma nat_ne_drop (b a : String) : natArgs b a ≠ dropArgs b := by
  intro h; have := congrArg List.length h; simp [natArgs, dropArgs] at this

/-- The accept rule differs from the outgoing rule. -/
lemma accept_ne_out (b : String) : acceptArgs b ≠ outgoingArgs b := by
  intro h; have := congrArg List.length h; simp [acceptArgs, outgoingArgs] at this

/-- The accept rule differs from the established-connections rule. -/
lemma accept_ne_ex (b : String) : acceptArgs b ≠ existingArgs b := by
  intro h; have := congrArg List.length h; simp [acceptArgs, existingArgs] at this

/-- The drop rule differs from the outgoing rule. -/
lemma drop_ne_out (b : String) : dropArgs b ≠ outgoingArgs b := by
  intro h; have := congrArg List.length h; simp [dropArgs, outgoingArgs] at this

/-- The drop rule differs from the established-connections rule. -/
lemma drop_ne_ex (b : String) : dropArgs b ≠ existingArgs b := by
  intro h; have := congrArg List.length h; simp [dropArgs, existingArgs] at this

/-- The drop rule differs from the accept rule. -/
lemma drop_ne_accept (b : String) : dropArgs b ≠ acceptArgs b := by
  intro h
  have h2 := congrArg (fun l => l.getLast?) h
  simp [dropArgs, acceptArgs] at h2

/-- The firewall state after `setupIPTables` with isolation off and NAT
on, as an explicit rule-operation chain. -/
lemma setupTT (b a : String) (k : Kernel) :
    (setupIPTables b a true true k).1 =
      (insRule (existingArgs b) (insRule (outgoingArgs b) (insRule (acceptArgs b)
        (delRule (dropArgs b) (insRule (natArgs b a)
          { k with ipForward := true }).1).1).1).1).1 := rfl

/-- The firewall state after `setupIPTables` with isolation off and NAT
off. -/
lemma setupTF (b a : String) (k : Kernel) :
    (setupIPTables b a true false k).1 =
      (insRule (existingArgs b) (insRule (outgoingArgs b) (insRule (acceptArgs b)
        (delRule (dropArgs b) { k with ipForward := true }).1).1).1).1 := rfl

/-- The firewall state after `setupIPTables` with isolation on and NAT
on. -/
lemma setupFT (b a : String) (k : Kernel) :
    (setupIPTables b a false true k).1 =
      (insRule (existingArgs b) (insRule (outgoingArgs b) (insRule (dropArgs b)
        (delRule (acceptArgs b) (insRule (natArgs b a)
          { k with ipForward := true }).1).1).1).1).1 := rfl

/-- The firewall state after `setupIPTables` with isolation on and NAT
off. -/
lemma setupFF (b a : String) (k : Kernel) :
    (setupIPTables b a false false k).1 =
      (insRule (existingArgs b) (insRule (outgoingArgs b) (insRule (dropArgs b)
        (delRule (acceptArgs b) { k with ipForward := true }).1).1).1).1 := rfl

/-- Setting an already-set forwarding flag is the identity. -/
lemma ipf_update (k : Kernel) (h : k.ipForward = true) :
    ({ k with ipForward := true } : Kernel) = k := by
  cases k; simp_all

/-- C6: the firewall setup is idempotent — running `setupIPTables` twice
with the same bridge name, address string and flags, from any firewall
state, produces exactly the state one run produces: every insertion
first checks for the rule and the policy-switch deletion of the second
run targets a rule the first run already removed. -/
theorem setupIPTables_idem (b a : String) (icc ipmasq : Bool) (k : Kernel) :
    (setupIPTables b a icc ipmasq (setupIPTables b a icc ipmasq k).1).1 =
      (setupIPTables b a icc ipmasq k).1 := by
  cases icc <;> cases ipmasq
  · -- isolation (icc = false), no NAT
    have hK1e := setupFF b a k
    set K1 := (setupIPTables b a false false k).1 with hK1
    have hipf : K1.ipForward = true := by
      rw [hK1e]; simp [insRule_ipf, delRule_ipf]
    have hdropK : dropArgs b ∈ K1.rules := by
      rw [hK1e]
      exact mem_insRule _ _ _ (mem_insRule _ _ _ (mem_insRule_self _ _))
    have haccK : acceptArgs b ∉ K1.rules := by
      rw [hK1e]
      exact not_mem_insRule _ _ _ (accept_ne_ex b)
        (not_mem_insRule _ _ _ (accept_ne_out b)
          (not_mem_insRule _ _ _ (drop_ne_accept b).symm
            (not_mem_delRule_self _ _)))
    have houtK : outgoingArgs b ∈ K1.rules := by
      rw [hK1e]; exact mem_insRule _ _ _ (mem_insRule_self _ _)
    have hexK : existingArgs b ∈ K1.rules := by
      rw [hK1e]; exact mem_insRule_self _ _
    rw [setupFF b a K1, ipf_update K1 hipf, delRule_fst_of_not_mem _ _ haccK,
      insRule_fst_of_mem _ _ hdropK, insRule_fst_of_mem _ _ houtK,
      insRule_fst_of_mem _ _ hexK]
  · -- isolation (icc = false), NAT
    have hK1e := setupFT b a k
    set K1 := (setupIPTables b a false true k).1 with hK1
    have hipf : K1.ipForward = true := by
      rw [hK1e]; simp [insRule_ipf, delRule_ipf]
    have hnatK : natArgs b a ∈ K1.rules := by
      rw [hK1e]
      exact mem_insRule _ _ _ (mem_insRule _ _ _ (mem_insRule _ _ _
        (mem_delRule _ _ _ (nat_ne_accept b a) (mem_insRule_self _ _))))
    have hdropK : dropArgs b ∈ K1.rules := by
      rw [hK1e]
      exact mem_insRule _ _ _ (mem_insRule _ _ _ (mem_insRule_self _ _))
    have haccK : acceptArgs b ∉ K1.rules := by
      rw [hK1e]
      exact not_mem_insRule _ _ _ (accept_ne_ex b)
        (not_mem_insRule _ _ _ (accept_ne_out b)
          (not_mem_insRule _ _ _ (drop_ne_accept b).symm
            (not_mem_delRule_self _ _)))
    have houtK : outgoingArgs b ∈ K1.rules := by
      rw [hK1e]; exact mem_insRule _ _ _ (mem_insRule_self _ _)
    have hexK : existingArgs b ∈ K1.rules := by
      rw [hK1e]; exact mem_insRule_self _ _
    rw [setupFT b a K1, ipf_update K1 hipf, insRule_fst_of_mem _ _ hnatK,
      delRule_fst_of_not_mem _ _ haccK, insRule_fst_of_mem _ _ hdropK,
      insRule_fst_of_mem _ _ houtK, insRule_fst_of_mem _ _ hexK]
  · -- inter-container traffic allowed (icc = true), no NAT
    have hK1e := setupTF b a k
    set K1 := (setupIPTables b a true false k).1 with hK1
    have hipf : K1.ipForward = true := by
      rw [hK1e]; simp [insRule_ipf, delRule_ipf]
    have haccK : acceptArgs b ∈ K1.rules := by
      rw [hK1e]
      exact mem_insRule _ _ _ (mem_insRule _ _ _ (mem_insRule_self _ _))
    have hdropK : dropArgs b ∉ K1.rules := by
      rw [hK1e]
      exact not_mem_insRule _ _ _ (drop_ne_ex b)
        (not_mem_insRule _ _ _ (drop_ne_out b)
          (not_mem_insRule _ _ _ (drop_ne_accept b)
            (not_mem_delRule_self _ _)))
    have houtK : outgoingArgs b ∈ K1.rules := by
      rw [hK1e]; exact mem_insRule _ _ _ (mem_insRule_self _ _)
    have hexK : existingArgs b ∈ K1.rules := by
      rw [hK1e]; exact mem_insRule_self _ _
    rw [setupTF b a K1, ipf_update K1 hipf, delRule_fst_of_not_mem _ _ hdropK,
      insRule_fst_of_mem _ _ haccK, insRule_fst_of_mem _ _ houtK,
      insRule_fst_of_mem _ _ hexK]
  · -- inter-container traffic allowed (icc = true), NAT
    have hK1e := setupTT b a k
    set K1 := (setupIPTables b a true true k).1 with hK1
    have hipf : K1.ipForward = true := by
      rw [hK1e]; simp [insRule_ipf, delRule_ipf]
    have hnatK : natArgs b a ∈ K1.rules := by
      rw [hK1e]
      exact mem_insRule _ _ _ (mem_insRule _ _ _ (mem_insRule _ _ _
        (mem_delRule _ _ _ (nat_ne_drop b a) (mem_insRule_self _ _))))
    have haccK : acceptArgs b ∈ K1.rules := by
      rw [hK1e]
      exact mem_insRule _ _ _ (mem_insRule _ _ _ (mem_insRule_self _ _))
    have hdropK : dropArgs b ∉ K1.rules := by
      rw [hK1e]
      exact not_mem_insRule _ _ _ (drop_ne_ex b)
        (not_mem_insRule _ _ _ (drop_ne_out b)
          (not_mem_insRule _ _ _ (drop_ne_accept b)
            (not_mem_delRule_self _ _)))
    have houtK : outgoingArgs b ∈ K1.rules := by
      rw [hK1e]; exact mem_insRule _ _ _ (mem_insRule_self _ _)
    have hexK : existingArgs b ∈ K1.rules := by
      rw [hK1e]; exact mem_insRule_self _ _
    rw [setupTT b a K1, ipf_update K1 hipf, insRule_fst_of_mem _ _ hnatK,
      delRule_fst_of_not_mem _ _ hdropK, insRule_fst_of_mem _ _ haccK,
      insRule_fst_of_mem _ _ houtK, insRule_fst_of_mem _ _ hexK]

/-- C9 witness: an eleven-character name at a concrete world. -/
theorem link_name_too_long_witness :
    maxVethName < ("abcdefghijk" : String).length ∧
    Link wFresh "net" "abcdefghijk" "sb" false =
      (.err (nameTooLongMsg "abcdefghijk"), wFresh, []) :=
  ⟨by decide, link_name_too_long wFresh "net" "abcdefghijk" "sb" false (by decide)⟩

end SimpleBridge
